import Mathlib

/-!
Shallow embedding of the Risk Routing & Reminder Synchronization subsystem of
the Daily-Health-Care repository (src/routing_engine.py, src/reminder_module.py,
src/reminder_sync.py, src/system_memory.py, src/config.py).

Python numbers (ints and floats of the snapshot) are modelled as ℚ; optional
dictionary fields as Option; Python truthiness of a numeric field (`if x and …`)
is the conjunction "present and nonzero".  Timestamps are modelled at minute
resolution (struct DateTime below); the ISO-8601 strings that SQLite compares
byte-wise are modelled by a zero-padded rendering whose byte-wise order agrees
with chronological order, and SQLite's TEXT comparison by a byte-wise
comparison on the character data.
-/

namespace DailyHealthCare

/-- config.py: `DEFAULT_USER_ID = os.getenv("DEFAULT_USER_ID", "user_001")`
(modelled with the environment default). -/
def DEFAULT_USER_ID : String := "user_001"

/-- A UTC instant at minute resolution: days since an epoch and the minute of
the day (0 ≤ minute < 1440 for normalized values).  Models `datetime.utcnow()`
as used by routing_engine.py and reminder_module.py. -/
structure DateTime where
  day : ℕ
  minute : ℕ
deriving DecidableEq

/-- `now + timedelta(minutes=m)`, normalizing the day rollover. -/
def addMinutes (d : DateTime) (m : ℕ) : DateTime :=
  { day := d.day + (d.minute + m) / 1440, minute := (d.minute + m) % 1440 }

/-- routing_engine.py `_sleep_macro`:
`evening = now.replace(hour=22, minute=0, second=0, microsecond=0);
if evening <= now: evening += timedelta(days=1)`.
At minute resolution the same-day comparison `evening <= now` is
`22*60 ≤ now.minute`. -/
def nextEvening (now : DateTime) : DateTime :=
  let evening : DateTime := { day := now.day, minute := 22 * 60 }
  if evening.minute ≤ now.minute then { day := evening.day + 1, minute := evening.minute }
  else evening

/-- Left-pad the decimal rendering of a natural number with zeros to width w. -/
def padNat (w n : ℕ) : String :=
  let s := toString n
  String.mk (List.replicate (w - s.length) '0') ++ s

/-- Models `datetime.isoformat()`: a zero-padded rendering of a DateTime, so
that byte-wise string order on renderings of normalized values coincides with
chronological order, exactly as for real ISO-8601 timestamps. -/
def DateTime.toIso (d : DateTime) : String :=
  "D" ++ padNat 8 d.day ++ "T" ++ padNat 4 d.minute

/-- Byte-wise (memcmp-style) comparison on character data. -/
def chLe : List Char → List Char → Bool
  | [], _ => true
  | _ :: _, [] => false
  | a :: as, b :: bs =>
      if a.val.toNat < b.val.toNat then true
      else if b.val.toNat < a.val.toNat then false
      else chLe as bs

/-- SQLite TEXT comparison `a <= b`, byte-wise; used by the reminder table's
`due_time <= ?` predicate. -/
def strLe (a b : String) : Bool := chLe a.data b.data

/-- Python `str.strip()`: remove leading and trailing whitespace. -/
def pyStrip (s : String) : String :=
  let ws : Char → Bool := fun c => c = ' ' || c = '\t' || c = '\n' || c = '\r'
  String.mk (((s.data.dropWhile ws).reverse.dropWhile ws).reverse)

/-- `state["weather"]` sub-dictionary of a StateSnapshot; a missing key is a
missing field (`weather.get(...)` returns None), and a missing "warnings" key
is the empty list (`weather.get("warnings", [])`). -/
structure Weather where
  temperature : Option ℚ
  humidity : Option ℚ
  warnings : List String
deriving DecidableEq

/-- `state["vitals"]` sub-dictionary of a StateSnapshot. -/
structure Vitals where
  heart_rate : Option ℚ
  steps : Option ℚ
  sleep : Option ℚ
deriving DecidableEq

/-- The state snapshot dictionary handed to RiskRouter (weather + vitals +
optional user id).  A snapshot with no "weather"/"vitals" key behaves as the
all-absent sub-record, which is how `state.get("weather", {})` reads it. -/
structure StateSnapshot where
  user_id : Option String
  weather : Weather
  vitals : Vitals
deriving DecidableEq

/-- routing_engine.py `RiskEvaluation` dataclass. -/
structure RiskEvaluation where
  score : ℕ
  level : String
  reasons : List String
deriving DecidableEq

/-! routing_engine.py `RiskRouter.evaluate`, translated block by block:
each `if` block of the source (which mutates the running `score` and appends
to `reasons`) becomes a stage function threading the (score, reasons)
accumulator.  `if humidity and humidity >= 90`, `if heart_rate and …`,
`if sleep and …` are Python truthiness tests: present and nonzero. -/

/-- The temperature block of `evaluate` (guarded by `temp is not None`). -/
def tempStage (temp : Option ℚ) (acc : ℕ × List String) : ℕ × List String :=
  match temp with
  | none => acc
  | some t =>
      if 33 ≤ t then (acc.1 + 4, acc.2 ++ ["高温 " ++ toString t ++ "°C"])
      else if 30 ≤ t then (acc.1 + 2, acc.2 ++ ["偏高温度 " ++ toString t ++ "°C"])
      else if t ≤ 10 then (acc.1 + 2, acc.2 ++ ["低温 " ++ toString t ++ "°C"])
      else acc

/-- The humidity block of `evaluate` (guarded by truthiness). -/
def humidityStage (humidity : Option ℚ) (acc : ℕ × List String) : ℕ × List String :=
  match humidity with
  | none => acc
  | some h =>
      if h ≠ 0 ∧ 90 ≤ h then (acc.1 + 1, acc.2 ++ ["湿度 " ++ toString h ++ "%"])
      else acc

/-- The weather-warning block of `evaluate`. -/
def warningsStage (warnings : List String) (acc : ℕ × List String) : ℕ × List String :=
  if "WHOT" ∈ warnings ∨ "WRAINB" ∈ warnings then (acc.1 + 3, acc.2 ++ ["天文台高危警告"])
  else acc

/-- The heart-rate block of `evaluate` (both bands guarded by truthiness). -/
def heartStage (heart_rate : Option ℚ) (acc : ℕ × List String) : ℕ × List String :=
  match heart_rate with
  | none => acc
  | some hr =>
      if hr ≠ 0 ∧ 110 ≤ hr then (acc.1 + 3, acc.2 ++ ["心率偏高 " ++ toString hr])
      else if hr ≠ 0 ∧ hr ≤ 50 then (acc.1 + 2, acc.2 ++ ["心率偏低 " ++ toString hr])
      else acc

/-- The sleep block of `evaluate` (guarded by truthiness). -/
def sleepStage (sleep : Option ℚ) (acc : ℕ × List String) : ℕ × List String :=
  match sleep with
  | none => acc
  | some sl =>
      if sl ≠ 0 ∧ sl < 6 then (acc.1 + 2, acc.2 ++ ["睡眠不足 " ++ toString sl ++ "h"])
      else acc

/-- routing_engine.py `RiskRouter.evaluate`: run the five blocks in source
order over the (score, reasons) accumulator, then band the level. -/
def evaluate (state : StateSnapshot) : RiskEvaluation :=
  let acc :=
    sleepStage state.vitals.sleep
      (heartStage state.vitals.heart_rate
        (warningsStage state.weather.warnings
          (humidityStage state.weather.humidity
            (tempStage state.weather.temperature (0, [])))))
  let level := if 7 ≤ acc.1 then "high" else if 4 ≤ acc.1 then "medium" else "low"
  { score := acc.1, level := level, reasons := acc.2 }

/-! Claim-side scoring table, written from the spec's words (§4.1 of the
spec): the additive contributions of each condition, the level thresholds, and
one reason per firing condition in evaluation order.  These are the comparison
point for claim C1, independent of the accumulation in `evaluate`. -/

/-- Spec table, temperature row group: ≥ 33 → 4; 30 ≤ t < 33 → 2; ≤ 10 → 2;
only the first matching band applies; absent is skipped. -/
def tableTempPts : Option ℚ → ℕ
  | none => 0
  | some t => if 33 ≤ t then 4 else if 30 ≤ t then 2 else if t ≤ 10 then 2 else 0

/-- Spec table: humidity ≥ 90 → 1; absent skipped. -/
def tableHumidityPts : Option ℚ → ℕ
  | none => 0
  | some h => if 90 ≤ h then 1 else 0

/-- Spec table: "WHOT" or "WRAINB" present in warnings → 3. -/
def tableWarningPts (warnings : List String) : ℕ :=
  if "WHOT" ∈ warnings ∨ "WRAINB" ∈ warnings then 3 else 0

/-- Spec table: heartRate ≥ 110 → 3 else heartRate ≤ 50 → 2; absent skipped. -/
def tableHeartPts : Option ℚ → ℕ
  | none => 0
  | some hr => if 110 ≤ hr then 3 else if hr ≤ 50 then 2 else 0

/-- Spec table: sleep < 6 → 2; absent skipped. -/
def tableSleepPts : Option ℚ → ℕ
  | none => 0
  | some sl => if sl < 6 then 2 else 0

/-- The claim's score: the sum of the additive table contributions. -/
def tableScore (state : StateSnapshot) : ℕ :=
  tableTempPts state.weather.temperature
    + tableHumidityPts state.weather.humidity
    + tableWarningPts state.weather.warnings
    + tableHeartPts state.vitals.heart_rate
    + tableSleepPts state.vitals.sleep

/-- The claim's level thresholds: score ≥ 7 → high; 4 ≤ score < 7 → medium;
else low. -/
def tableLevel (score : ℕ) : String :=
  if 7 ≤ score then "high" else if 4 ≤ score then "medium" else "low"

/-- The reason the temperature row contributes when it fires. -/
def tableTempReasons : Option ℚ → List String
  | none => []
  | some t =>
      if 33 ≤ t then ["高温 " ++ toString t ++ "°C"]
      else if 30 ≤ t then ["偏高温度 " ++ toString t ++ "°C"]
      else if t ≤ 10 then ["低温 " ++ toString t ++ "°C"]
      else []

/-- The reason the humidity row contributes when it fires. -/
def tableHumidityReasons : Option ℚ → List String
  | none => []
  | some h => if 90 ≤ h then ["湿度 " ++ toString h ++ "%"] else []

/-- The reason the warning row contributes when it fires. -/
def tableWarningReasons (warnings : List String) : List String :=
  if "WHOT" ∈ warnings ∨ "WRAINB" ∈ warnings then ["天文台高危警告"] else []

/-- The reason the heart-rate rows contribute when one fires. -/
def tableHeartReasons : Option ℚ → List String
  | none => []
  | some hr =>
      if 110 ≤ hr then ["心率偏高 " ++ toString hr]
      else if hr ≤ 50 then ["心率偏低 " ++ toString hr]
      else []

/-- The reason the sleep row contributes when it fires. -/
def tableSleepReasons : Option ℚ → List String
  | none => []
  | some sl => if sl < 6 then ["睡眠不足 " ++ toString sl ++ "h"] else []

/-- One reason per firing condition, in the evaluation order of the table. -/
def tableReasons (state : StateSnapshot) : List String :=
  tableTempReasons state.weather.temperature
    ++ tableHumidityReasons state.weather.humidity
    ++ tableWarningReasons state.weather.warnings
    ++ tableHeartReasons state.vitals.heart_rate
    ++ tableSleepReasons state.vitals.sleep

/-- reminder_module.py `Reminder` dataclass / `reminders` table row.
`due_time` and `created_at` are the stored ISO strings; `tags` the serialized
comma-joined list (nullable). -/
structure Reminder where
  id : ℕ
  user_id : String
  content : String
  severity : String
  due_time : Option String
  repeat_rule : Option String
  status : String
  tags : Option String
  created_at : String
deriving DecidableEq

/-- The SQLite `reminders` table plus its AUTOINCREMENT counter: the rows in
insertion order and the next fresh id. -/
structure ReminderStore where
  reminders : List Reminder
  next_id : ℕ
deriving DecidableEq

/-- One call to `ReminderMQTTPublisher.publish(reminder, event)` that actually
reaches the channel: the broadcast SyncEvent as produced by `publish`. -/
structure SyncEventOut where
  event : String
  reminder : Reminder
deriving DecidableEq

/-- reminder_module.py `ReminderManager.create_reminder`: insert a row with
status 'pending', `due_time.isoformat()`, `",".join(tags)`, fresh id;
then publish a "created" SyncEvent when a publisher is attached and available
(`hasPub`).  Returns the created row, the new store, and the publishes made.
(The best-effort memory log of the mutation is not part of the store state.) -/
def createReminder (store : ReminderStore) (hasPub : Bool)
    (content user_id severity : String) (due_time : Option DateTime)
    (repeat_rule : Option String) (tags : Option (List String)) (created_at : String) :
    Reminder × ReminderStore × List SyncEventOut :=
  let tag_str : Option String :=
    match tags with
    | some ts => if ts = [] then none else some (String.intercalate "," ts)
    | none => none
  let r : Reminder :=
    { id := store.next_id, user_id := user_id, content := content, severity := severity,
      due_time := due_time.map DateTime.toIso, repeat_rule := repeat_rule,
      status := "pending", tags := tag_str, created_at := created_at }
  (r, { reminders := store.reminders ++ [r], next_id := store.next_id + 1 },
   if hasPub then [{ event := "created", reminder := r }] else [])

/-- reminder_module.py `ReminderManager.update_status`:
`UPDATE reminders SET status = ? WHERE id = ?`, then re-SELECT the row.
When the id does not exist the SELECT returns no row and `Reminder.from_row`
raises (modelled as `Except.error`); otherwise the row is returned and, when a
publisher is attached and `propagate_mqtt` is set, a SyncEvent carrying the
new status is published. -/
def updateStatus (store : ReminderStore) (hasPub : Bool)
    (reminder_id : ℕ) (status : String) (propagate_mqtt : Bool) :
    Except Unit (Reminder × ReminderStore × List SyncEventOut) :=
  let updated := store.reminders.map
    (fun r => if r.id = reminder_id then { r with status := status } else r)
  match updated.find? (fun r => r.id == reminder_id) with
  | none => Except.error ()
  | some r =>
      Except.ok (r, { store with reminders := updated },
        if hasPub && propagate_mqtt then [{ event := status, reminder := r }] else [])

/-- The selection predicate of `trigger_due_reminders`:
`status = 'pending' AND due_time IS NOT NULL AND due_time <= iso_now`
(TEXT comparison on the stored strings). -/
def duePending (now : String) (r : Reminder) : Bool :=
  r.status == "pending" &&
    (match r.due_time with
     | some d => strLe d now
     | none => false)

/-- One iteration of the update loop in `trigger_due_reminders`:
`self.update_status(reminder.id, "triggered", user_id=reminder.user_id)`
(with the default `propagate_mqtt=True`), threading store and publishes.
The error branch is unreachable in the loop since every selected id exists. -/
def triggerStep (hasPub : Bool) (acc : ReminderStore × List SyncEventOut) (r : Reminder) :
    ReminderStore × List SyncEventOut :=
  match updateStatus acc.1 hasPub r.id "triggered" true with
  | Except.ok (_, s, pubs) => (s, acc.2 ++ pubs)
  | Except.error _ => acc

/-- reminder_module.py `ReminderManager.trigger_due_reminders`: select all
pending rows with non-null `due_time <= now`, transition each to 'triggered'
through `update_status`, and return the selected rows (as fetched, i.e. with
their pre-update status). -/
def triggerDue (store : ReminderStore) (hasPub : Bool) (now : String) :
    List Reminder × ReminderStore × List SyncEventOut :=
  let selected := store.reminders.filter (duePending now)
  let final := selected.foldl (triggerStep hasPub) (store, [])
  (selected, final.1, final.2)

/-- The `"reminder"` sub-dictionary of a received sync message
(`payload.get("reminder") or {}`); every key may be missing. -/
structure RemPayload where
  id : Option ℕ
  status : Option String
  user_id : Option String
deriving DecidableEq

/-- A decoded sync message body as read by `ReminderSync._on_message`;
every key may be missing. -/
structure SyncPayload where
  event : Option String
  reminder : Option RemPayload
  source : Option String
deriving DecidableEq

/-- The event values `_on_message` accepts for a status update. -/
def acceptedEvents : List String := ["completed", "ignored", "pending", "triggered"]

/-- reminder_sync.py: `status = reminder.get("status") or event` — the target
status is the payload reminder's status unless missing or empty (falsy), in
which case it falls back to the event string. -/
def syncStatus (payload : SyncPayload) : Option String :=
  match (payload.reminder.getD { id := none, status := none, user_id := none }).status with
  | some s => if s = "" then payload.event else some s
  | none => payload.event

/-- reminder_sync.py `ReminderSync._on_message`, as a transformer of the local
store.  `msg = none` models an undecodable payload (discarded).  A payload
whose source equals the local origin identity is discarded.  Otherwise, when
the event is one of `acceptedEvents` and the reminder id is truthy (present
and nonzero), `update_status` is called with `propagate_mqtt=False`; a failure
of `update_status` (unknown id) is caught and logged, leaving the store
unchanged.  Returns the new store and every outbound publish made. -/
def onMessage (selfId : String) (hasPub : Bool) (store : ReminderStore)
    (msg : Option SyncPayload) : ReminderStore × List SyncEventOut :=
  match msg with
  | none => (store, [])
  | some payload =>
      if payload.source = some selfId then (store, [])
      else
        match payload.event,
          (payload.reminder.getD { id := none, status := none, user_id := none }).id with
        | some e, some i =>
            if e ∈ acceptedEvents ∧ i ≠ 0 then
              match updateStatus store hasPub i ((syncStatus payload).getD e) false with
              | Except.ok (_, s, pubs) => (s, pubs)
              | Except.error _ => (store, [])
            else (store, [])
        | _, _ => (store, [])

/-- routing_engine.py `CareMacroEngine.run` heat condition:
`if temperature and temperature >= 33 or "WHOT" in warnings` — by Python
precedence `(truthy temperature ∧ temperature ≥ 33) ∨ "WHOT" ∈ warnings`. -/
def heatCond (state : StateSnapshot) : Bool :=
  (match state.weather.temperature with
   | some t => decide (t ≠ 0 ∧ 33 ≤ t)
   | none => false)
  || state.weather.warnings.contains "WHOT"

/-- routing_engine.py `CareMacroEngine.run` sleep condition:
`if vitals.get("sleep") and vitals["sleep"] < 6` — truthy and below 6. -/
def sleepCond (vitals : Vitals) : Bool :=
  match vitals.sleep with
  | some sl => decide (sl ≠ 0 ∧ sl < 6)
  | none => false

def hydrationContent : String := "未来 1 小时内补水 500ml，并避免正午外出"

def familyContent : String := "联系家属确认状态，如持续不适请求医"

def windDownContent : String := "今晚 22:00 前完成放松活动（如听音乐/伸展），准备早睡"

def sleepLogContent : String := "记录今晚睡眠时长与感受，明早确认"

def heatMacroMessage : String :=
  "🌡️ 检测到高温高危场景，已生成补水与家属联络提醒，请立即执行，并保持凉爽。"

def sleepMacroMessage : String := "😴 连续睡眠不足，系统已安排睡眠改善提醒，请按时执行。"

def genericCautionMessage : String := "检测到风险升高，请保持警惕并及时查看提醒任务。"

/-- The result of one macro: the advisory sentence and the reminders created. -/
structure MacroOut where
  message : String
  reminders : List Reminder
deriving DecidableEq

/-- routing_engine.py `CareMacroEngine._heat_macro`: a hydration reminder due
in 30 minutes and a family-contact reminder due in 1 hour, both severity
high. -/
def heatMacro (store : ReminderStore) (hasPub : Bool) (user_id : String)
    (now : DateTime) (created_at : String) :
    MacroOut × ReminderStore × List SyncEventOut :=
  let c1 := createReminder store hasPub hydrationContent user_id "high"
    (some (addMinutes now 30)) none (some ["heat", "hydration"]) created_at
  let c2 := createReminder c1.2.1 hasPub familyContent user_id "high"
    (some (addMinutes now 60)) none (some ["family", "safety"]) created_at
  ({ message := heatMacroMessage, reminders := [c1.1, c2.1] }, c2.2.1, c1.2.2 ++ c2.2.2)

/-- routing_engine.py `CareMacroEngine._sleep_macro`: a wind-down reminder due
at the next upcoming 22:00 (severity medium) and a sleep-logging reminder due
in 12 hours (severity low). -/
def sleepMacro (store : ReminderStore) (hasPub : Bool) (user_id : String)
    (now : DateTime) (created_at : String) :
    MacroOut × ReminderStore × List SyncEventOut :=
  let c1 := createReminder store hasPub windDownContent user_id "medium"
    (some (nextEvening now)) none (some ["sleep", "routine"]) created_at
  let c2 := createReminder c1.2.1 hasPub sleepLogContent user_id "low"
    (some (addMinutes now (12 * 60))) none (some ["sleep", "tracking"]) created_at
  ({ message := sleepMacroMessage, reminders := [c1.1, c2.1] }, c2.2.1, c1.2.2 ++ c2.2.2)

/-- The prompt-context payload of the rag path (`RagPayload` below) or the
reasons list of the template path — the `evidence` value of a RouteResult. -/
structure RagPayload where
  state : String
  knowledge : String
  short_term : String
  profile : String
deriving DecidableEq

inductive Evidence
  | nothing
  | reasons (rs : List String)
  | payload (p : RagPayload)
deriving DecidableEq

/-- The dictionary returned by the three routing paths.  The macro path has no
"evidence" key (Evidence.nothing) and the rag/template paths no
"reminder_ids" key (the empty list). -/
structure RouteResult where
  route : String
  risk_level : String
  message : String
  reminder_ids : List ℕ
  evidence : Evidence
deriving DecidableEq

/-- routing_engine.py `CareMacroEngine.run`: collect the fired macros in
heat-then-sleep order (threading reminder creation through the store), fall
back to a single generic caution when none fired, join the sentences with
newlines and flatten the created reminder ids. -/
def careMacroRun (evaluation : RiskEvaluation) (state : StateSnapshot)
    (store : ReminderStore) (hasPub : Bool) (now : DateTime) (created_at : String) :
    RouteResult × ReminderStore × List SyncEventOut :=
  let user_id := state.user_id.getD DEFAULT_USER_ID
  let step1 : List MacroOut × ReminderStore × List SyncEventOut :=
    if heatCond state then
      let h := heatMacro store hasPub user_id now created_at
      ([h.1], h.2.1, h.2.2)
    else ([], store, [])
  let step2 : List MacroOut × ReminderStore × List SyncEventOut :=
    if sleepCond state.vitals then
      let s := sleepMacro step1.2.1 hasPub user_id now created_at
      (step1.1 ++ [s.1], s.2.1, step1.2.2 ++ s.2.2)
    else step1
  let macros :=
    if step2.1 = [] then [{ message := genericCautionMessage, reminders := [] }]
    else step2.1
  let final_message := String.intercalate "\n" (macros.map MacroOut.message)
  let reminder_ids := (macros.map MacroOut.reminders).flatten.map Reminder.id
  ({ route := "macro", risk_level := evaluation.level, message := final_message,
     reminder_ids := reminder_ids, evidence := Evidence.nothing },
   step2.2.1, step2.2.2)

/-- long_memory.py `RetrievedContext` as consumed by `_run_rag_path`: the page
contents of the knowledge snippets and short-term memory documents, and the
optional profile text. -/
structure RagContext where
  knowledge_snippets : List String
  short_term_memory : List String
  user_profile : Option String
deriving DecidableEq

/-- Models `json.dumps(state, ensure_ascii=False)`: a canonical serialization
of the snapshot (only its identity matters to the claims). -/
def stateJson (state : StateSnapshot) : String :=
  let num : Option ℚ → String := fun x =>
    match x with
    | some q => toString q
    | none => "null"
  "\x7buser_id: " ++ (state.user_id.getD "null")
    ++ ", temperature: " ++ num state.weather.temperature
    ++ ", humidity: " ++ num state.weather.humidity
    ++ ", warnings: [" ++ String.intercalate ", " state.weather.warnings ++ "]"
    ++ ", heart_rate: " ++ num state.vitals.heart_rate
    ++ ", steps: " ++ num state.vitals.steps
    ++ ", sleep: " ++ num state.vitals.sleep ++ "\x7d"

/-- The `payload` dictionary of `_run_rag_path`: the serialized state plus the
joined context fields, each falling back to "无" when falsy (empty). -/
def buildRagPayload (state : StateSnapshot) (context : RagContext) : RagPayload :=
  let orNone : String → String := fun s => if s = "" then "无" else s
  { state := stateJson state,
    knowledge := orNone (String.intercalate "\n" context.knowledge_snippets),
    short_term := orNone (String.intercalate "\n" context.short_term_memory),
    profile := orNone (context.user_profile.getD "") }

/-- routing_engine.py `RiskRouter._run_rag_path`.  The outcome of
`(self.rag_prompt | self.llm).invoke(payload)` — an external collaborator —
is the parameter `llm`: `Except.ok content` for a reply, `Except.error exc`
for a raised timeout/provider error, which the `try/except` turns into the
fallback message.  Route is "rag" and evidence is the payload sent. -/
def runRagPath (evaluation : RiskEvaluation) (state : StateSnapshot)
    (context : RagContext) (llm : Except String String) : RouteResult :=
  let payload := buildRagPayload state context
  let message :=
    match llm with
    | Except.ok content => content
    | Except.error exc => "无法调用模型，改为规则输出。原因: " ++ exc
  { route := "rag", risk_level := evaluation.level, message := pyStrip message,
    reminder_ids := [], evidence := Evidence.payload payload }

def templateCalmMessage : String := "今日状态平稳，继续保持规律作息和补水。"

def templateCautionMessage : String := "出现轻微天气波动，请留意系统提醒。"

def stepsClause : String := " 适量活动可帮助维持心肺功能。"

/-- The steps test of `_run_template_path`:
`if vitals.get("steps") and vitals["steps"] < 3000` — truthy and below 3000. -/
def stepsCond (vitals : Vitals) : Bool :=
  match vitals.steps with
  | some st => decide (st ≠ 0 ∧ st < 3000)
  | none => false

/-- routing_engine.py `RiskRouter._run_template_path`: the calm base sentence
when there are no warnings (falsy list), else the caution sentence; the
activity clause appended when the steps test fires; evidence is the
evaluation's reasons. -/
def runTemplatePath (evaluation : RiskEvaluation) (state : StateSnapshot) : RouteResult :=
  let base :=
    if state.weather.warnings = [] then templateCalmMessage else templateCautionMessage
  let message := if stepsCond state.vitals then base ++ stepsClause else base
  { route := "template", risk_level := evaluation.level, message := message,
    reminder_ids := [], evidence := Evidence.reasons evaluation.reasons }

/-- The three-way dispatch of `RiskRouter.route` keyed by the evaluation
level: high → macro, medium → rag, low → template.  The rag and template
paths touch neither the store nor the channel. -/
def dispatch (evaluation : RiskEvaluation) (state : StateSnapshot)
    (store : ReminderStore) (hasPub : Bool) (now : DateTime) (created_at : String)
    (context : RagContext) (llm : Except String String) :
    RouteResult × ReminderStore × List SyncEventOut :=
  if evaluation.level = "high" then careMacroRun evaluation state store hasPub now created_at
  else if evaluation.level = "medium" then (runRagPath evaluation state context llm, store, [])
  else (runTemplatePath evaluation state, store, [])

/-- routing_engine.py `RiskRouter.route`.  The two `system_memory.add_event`
calls are unguarded; their outcomes are the parameters `log1Ok` / `log2Ok`
(`false` models a raised exception inside `add_event`).  Returns the outcome
(`Except.error` when an exception escaped `route`), the store and publishes
as left behind, and the memory events that were actually logged, in call
order. -/
def route (state : StateSnapshot) (store : ReminderStore) (hasPub : Bool)
    (now : DateTime) (created_at : String) (context : RagContext)
    (llm : Except String String) (log1Ok log2Ok : Bool) :
    Except Unit RouteResult × ReminderStore × List SyncEventOut × List String :=
  let evaluation := evaluate state
  if log1Ok = false then (Except.error (), store, [], [])
  else
    let d := dispatch evaluation state store hasPub now created_at context llm
    if log2Ok = false then (Except.error (), d.2.1, d.2.2, ["routing_request"])
    else (Except.ok d.1, d.2.1, d.2.2, ["routing_request", "routing_result"])

/-- The status values of the reminder lifecycle (spec §3; the schema default
is 'pending'). -/
def validStatuses : List String := ["pending", "triggered", "completed", "ignored"]

/-- Every persisted reminder carries a lifecycle status. -/
def StoreInv (s : ReminderStore) : Prop :=
  ∀ r ∈ s.reminders, r.status ∈ validStatuses

instance (s : ReminderStore) : Decidable (StoreInv s) :=
  inferInstanceAs (Decidable (∀ r ∈ s.reminders, r.status ∈ validStatuses))

/-- The store-mutating operations of the subsystem: creation, explicit status
update, the due-time sweep, and the synchronizer's handling of one received
message. -/
inductive StoreOp
  | create (hasPub : Bool) (content user_id severity : String)
      (due_time : Option DateTime) (repeat_rule : Option String)
      (tags : Option (List String)) (created_at : String)
  | update (hasPub : Bool) (reminder_id : ℕ) (status : String) (propagate_mqtt : Bool)
  | sweep (hasPub : Bool) (now : String)
  | sync (selfId : String) (hasPub : Bool) (msg : Option SyncPayload)

/-- The store left behind by one operation.  A failing `update_status`
(unknown id) raises to its caller and leaves the store unchanged. -/
def applyOp (store : ReminderStore) : StoreOp → ReminderStore
  | StoreOp.create hasPub c u sev dt rr tg ca =>
      (createReminder store hasPub c u sev dt rr tg ca).2.1
  | StoreOp.update hasPub i st prop =>
      match updateStatus store hasPub i st prop with
      | Except.ok (_, s, _) => s
      | Except.error _ => store
  | StoreOp.sweep hasPub now => (triggerDue store hasPub now).2.1
  | StoreOp.sync selfId hasPub msg => (onMessage selfId hasPub store msg).1

/-- The side condition under which an operation writes only lifecycle
statuses: an explicit update's status argument lies in the enum, and a sync
message's encoded reminder status is missing, empty (falsy), or in the enum.
Creation and the sweep write only 'pending' / 'triggered'. -/
def opStatusSafe : StoreOp → Prop
  | StoreOp.update _ _ st _ => st ∈ validStatuses
  | StoreOp.sync _ _ msg =>
      ∀ p rp s, msg = some p → p.reminder = some rp → rp.status = some s →
        s = "" ∨ s ∈ validStatuses
  | _ => True

/-! Concrete sample inputs used by the witnesses and counterexamples. -/

/-- A snapshot whose score comes only from humidity, a warning and heart rate
(7 = 1 + 3 + 3 → level "high") while neither care macro can fire. -/
def highNoMacroState : StateSnapshot :=
  { user_id := none,
    weather := { temperature := none, humidity := some 95, warnings := ["WRAINB"] },
    vitals := { heart_rate := some 115, steps := none, sleep := none } }

/-- A snapshot whose only present field is a heart rate of exactly 0. -/
def hrZeroState : StateSnapshot :=
  { user_id := none,
    weather := { temperature := none, humidity := none, warnings := [] },
    vitals := { heart_rate := some 0, steps := none, sleep := none } }

/-- A snapshot whose only present field is a sleep duration of exactly 0. -/
def sleepZeroState : StateSnapshot :=
  { user_id := none,
    weather := { temperature := none, humidity := none, warnings := [] },
    vitals := { heart_rate := none, steps := some 4000, sleep := some 0 } }

/-- A calm snapshot with a present step count of exactly 0. -/
def stepsZeroState : StateSnapshot :=
  { user_id := none,
    weather := { temperature := none, humidity := none, warnings := [] },
    vitals := { heart_rate := none, steps := some 0, sleep := none } }

/-- Spec §8 Scenario A: temperature 35, warning WHOT, heart rate 115,
sleep 5.5 (score 4 + 3 + 3 + 2 = 12). -/
def scenarioAState : StateSnapshot :=
  { user_id := some "user_001",
    weather := { temperature := some 35, humidity := none, warnings := ["WHOT"] },
    vitals := { heart_rate := some 115, steps := none, sleep := some (mkRat 11 2) } }

/-- An empty reminder table (AUTOINCREMENT starts at 1). -/
def emptyStore : ReminderStore := { reminders := [], next_id := 1 }

def sampleReminderDueEarly : Reminder :=
  { id := 1, user_id := "user_001", content := "喝水", severity := "high",
    due_time := some "D00000002T0600", repeat_rule := none, status := "pending",
    tags := none, created_at := "D00000002T0500" }

def sampleReminderNoDue : Reminder :=
  { id := 2, user_id := "user_001", content := "散步", severity := "low",
    due_time := none, repeat_rule := none, status := "pending",
    tags := none, created_at := "D00000002T0500" }

def sampleReminderDone : Reminder :=
  { id := 3, user_id := "user_001", content := "量血压", severity := "medium",
    due_time := some "D00000002T0550", repeat_rule := none, status := "completed",
    tags := none, created_at := "D00000002T0500" }

/-- A store with one due pending reminder, one pending reminder with no
deadline, and one completed reminder. -/
def sampleStore : ReminderStore :=
  { reminders := [sampleReminderDueEarly, sampleReminderNoDue, sampleReminderDone],
    next_id := 4 }

/-- A remote status-update message for reminder 1, from another device. -/
def remoteCompleteMsg : SyncPayload :=
  { event := some "completed",
    reminder := some { id := some 1, status := some "completed", user_id := some "user_001" },
    source := some "device-B" }

/-- A remote message whose encoded reminder status is outside the enum. -/
def remoteBrokenMsg : SyncPayload :=
  { event := some "completed",
    reminder := some { id := some 1, status := some "broken", user_id := some "user_001" },
    source := some "device-B" }

/-- An empty retrieval context for the rag path. -/
def emptyContext : RagContext :=
  { knowledge_snippets := [], short_term_memory := [], user_profile := none }

def sampleNow : DateTime := { day := 2, minute := 600 }

/-- A sync message stamped with this process's own origin identity. -/
def selfEchoMsg : SyncPayload :=
  { event := some "completed",
    reminder := some { id := some 1, status := some "ignored", user_id := none },
    source := some "device-A" }

/-- Claim C2 view of the heat macro's reminders: a hydration reminder due in
30 minutes and a family-contact reminder due in 1 hour, both severity high,
with ids allocated from `base`. -/
def claimHeatReminders (base : ℕ) (uid : String) (now : DateTime) (ca : String) :
    List Reminder :=
  [{ id := base, user_id := uid, content := hydrationContent, severity := "high",
     due_time := some (addMinutes now 30).toIso, repeat_rule := none,
     status := "pending", tags := some "heat,hydration", created_at := ca },
   { id := base + 1, user_id := uid, content := familyContent, severity := "high",
     due_time := some (addMinutes now 60).toIso, repeat_rule := none,
     status := "pending", tags := some "family,safety", created_at := ca }]

/-- Claim C2 view of the sleep macro's reminders: a wind-down reminder due at
the next upcoming 22:00 (severity medium) and a sleep-logging reminder due in
12 hours (severity low), with ids allocated from `base`. -/
def claimSleepReminders (base : ℕ) (uid : String) (now : DateTime) (ca : String) :
    List Reminder :=
  [{ id := base, user_id := uid, content := windDownContent, severity := "medium",
     due_time := some (nextEvening now).toIso, repeat_rule := none,
     status := "pending", tags := some "sleep,routine", created_at := ca },
   { id := base + 1, user_id := uid, content := sleepLogContent, severity := "low",
     due_time := some (addMinutes now (12 * 60)).toIso, repeat_rule := none,
     status := "pending", tags := some "sleep,tracking", created_at := ca }]

end DailyHealthCare

namespace DailyHealthCare

/-- Joining a one-element list inserts no separator. -/
theorem intercalate_singleton (sep x : String) : String.intercalate sep [x] = x := by
  simp [String.intercalate, String.intercalate.go]

/-- A successful `update_status` maps the status of every row with the target
id, keeps the id counter, and publishes exactly when a publisher is attached
and propagation is requested. -/
theorem updateStatus_ok (s : ReminderStore) (hasPub : Bool) (i : ℕ) (st : String)
    (prop : Bool) (w : Reminder) (s' : ReminderStore) (pubs : List SyncEventOut)
    (h : updateStatus s hasPub i st prop = Except.ok (w, s', pubs)) :
    s'.reminders = s.reminders.map (fun r => if r.id = i then { r with status := st } else r) ∧
    s'.next_id = s.next_id ∧
    pubs = (if hasPub && prop then [{ event := st, reminder := w }] else []) := by
  simp only [updateStatus] at h
  cases hfind : (s.reminders.map
      (fun r => if r.id = i then { r with status := st } else r)).find? (fun r => r.id == i) with
  | none => rw [hfind] at h; exact absurd h (by simp)
  | some v =>
      rw [hfind] at h
      simp only [Except.ok.injEq, Prod.mk.injEq] at h
      obtain ⟨hv, hs, hp⟩ := h
      exact ⟨by rw [← hs], by rw [← hs], by rw [← hp, hv]⟩

/-- A failing `update_status` means no row carries the target id. -/
theorem updateStatus_error (s : ReminderStore) (hasPub : Bool) (i : ℕ) (st : String)
    (prop : Bool) (h : updateStatus s hasPub i st prop = Except.error ()) :
    ∀ r ∈ s.reminders, r.id ≠ i := by
  intro r hr
  simp only [updateStatus] at h
  cases hfind : (s.reminders.map
      (fun r => if r.id = i then { r with status := st } else r)).find? (fun r => r.id == i) with
  | none =>
      rw [List.find?_eq_none] at hfind
      intro hri
      have hmem := List.mem_map_of_mem
        (fun r => if r.id = i then { r with status := st } else r) hr
      have := hfind _ hmem
      simp [hri] at this
  | some v => rw [hfind] at h; exact absurd h (by simp)

/-- The update loop of the due-time sweep, characterized as a single map over
the table: a row is set to 'triggered' exactly when its id occurs among the
looped rows (each of which must name an existing id). -/
theorem foldTrigger_reminders (hasPub : Bool) (todo : List Reminder) :
    ∀ (s : ReminderStore) (p : List SyncEventOut),
      (∀ t ∈ todo, ∃ r ∈ s.reminders, r.id = t.id) →
      ((todo.foldl (triggerStep hasPub) (s, p)).1).reminders
        = s.reminders.map (fun r =>
            if r.id ∈ todo.map Reminder.id then { r with status := "triggered" } else r) := by
  induction todo with
  | nil =>
      intro s p _
      simp
  | cons t todo ih =>
      intro s p hsub
      obtain ⟨r0, hr0, hid0⟩ := hsub t (List.mem_cons_self t todo)
      have hfind : ((s.reminders.map
          (fun r => if r.id = t.id then { r with status := "triggered" } else r)).find?
            (fun r => r.id == t.id)).isSome := by
        rw [List.find?_isSome]
        exact ⟨_, List.mem_map_of_mem _ hr0, by by_cases h : r0.id = t.id <;> simp [h, hid0]⟩
      obtain ⟨w, hw⟩ := Option.isSome_iff_exists.mp hfind
      have hstep : triggerStep hasPub (s, p) t
          = (ReminderStore.mk (s.reminders.map
              (fun r => if r.id = t.id then { r with status := "triggered" } else r)) s.next_id,
             p ++ (if hasPub then [{ event := "triggered", reminder := w }] else [])) := by
        simp [triggerStep, updateStatus, hw]
      have hsub' : ∀ u ∈ todo, ∃ r' ∈ s.reminders.map
          (fun r => if r.id = t.id then { r with status := "triggered" } else r),
          r'.id = u.id := by
        intro u hu
        obtain ⟨r, hr, hid⟩ := hsub u (List.mem_cons_of_mem _ hu)
        refine ⟨_, List.mem_map_of_mem _ hr, ?_⟩
        by_cases h : r.id = t.id
        · rw [if_pos h]; exact hid
        · rw [if_neg h]; exact hid
      rw [List.foldl_cons, hstep, ih _ _ hsub', List.map_map]
      refine List.map_congr_left ?_
      intro a _
      by_cases hat : a.id = t.id <;>
        by_cases hin : a.id ∈ todo.map Reminder.id <;>
          simp [Function.comp, hat, hin]

/-- C3: whenever neither the heat macro nor the sleep macro fires,
CareMacroPlanner.run still returns route "macro" with the single generic
caution message and an empty reminderIds list, creating zero reminders (the
store is unchanged and nothing is published), even though the risk level is
high. -/
theorem careMacroRun_noMacro (evaluation : RiskEvaluation) (state : StateSnapshot)
    (store : ReminderStore) (hasPub : Bool) (now : DateTime) (created_at : String)
    (hheat : heatCond state = false) (hsleep : sleepCond state.vitals = false)
    (hlevel : evaluation.level = "high") :
    careMacroRun evaluation state store hasPub now created_at
      = ({ route := "macro", risk_level := "high", message := genericCautionMessage,
           reminder_ids := [], evidence := Evidence.nothing }, store, []) := by
  simp [careMacroRun, hheat, hsleep, hlevel, intercalate_singleton]

/-- Witness for C3 at a concrete snapshot whose score of 7 comes from
humidity + warning + heart rate alone. -/
theorem careMacroRun_noMacro_witness :
    heatCond highNoMacroState = false ∧ sleepCond highNoMacroState.vitals = false ∧
    (evaluate highNoMacroState).level = "high" ∧
    careMacroRun (evaluate highNoMacroState) highNoMacroState emptyStore true sampleNow "T"
      = ({ route := "macro", risk_level := "high", message := genericCautionMessage,
           reminder_ids := [], evidence := Evidence.nothing }, emptyStore, []) :=
  ⟨by decide, by decide, by decide,
   careMacroRun_noMacro (evaluate highNoMacroState) highNoMacroState emptyStore true
     sampleNow "T" (by decide) (by decide) (by decide)⟩

/-- C5: a received SyncEvent whose source equals the local origin identity is
discarded: the local store is unchanged and nothing is published, whatever
event value and reminder status it encodes. -/
theorem onMessage_discards_self (selfId : String) (hasPub : Bool)
    (store : ReminderStore) (payload : SyncPayload)
    (hsrc : payload.source = some selfId) :
    onMessage selfId hasPub store (some payload) = (store, []) := by
  simp [onMessage, hsrc]

/-- Witness for C5: a self-originated completion event against the sample
store. -/
theorem onMessage_discards_self_witness :
    selfEchoMsg.source = some "device-A" ∧
    onMessage "device-A" true sampleStore (some selfEchoMsg) = (sampleStore, []) :=
  ⟨rfl, onMessage_discards_self "device-A" true sampleStore selfEchoMsg rfl⟩

/-- C8: on the rag path, a failure of the text-generation collaborator is
caught and replaced by the fallback message naming the failure; the result
still reports route "rag" and its evidence is exactly the prompt payload that
was sent. -/
theorem ragPath_fallback (evaluation : RiskEvaluation) (state : StateSnapshot)
    (context : RagContext) (exc : String) :
    runRagPath evaluation state context (Except.error exc)
      = { route := "rag", risk_level := evaluation.level,
          message := pyStrip ("无法调用模型，改为规则输出。原因: " ++ exc),
          reminder_ids := [], evidence := Evidence.payload (buildRagPayload state context) } := by
  simp [runRagPath]

/-- C7 (amended): route logs a "routing_request" event before dispatch and a
"routing_result" event after dispatch, but the two `add_event` calls are
unguarded: when both succeed the dispatch result is returned with both events
logged in call order; when the first fails nothing is dispatched and the
exception escapes; when the second fails the exception escapes and the
already-computed RouteResult is not returned (dispatch's store mutations and
publishes persist). -/
theorem route_logs_unguarded (state : StateSnapshot) (store : ReminderStore)
    (hasPub : Bool) (now : DateTime) (created_at : String) (context : RagContext)
    (llm : Except String String) :
    (route state store hasPub now created_at context llm true true
       = (Except.ok (dispatch (evaluate state) state store hasPub now created_at context llm).1,
          (dispatch (evaluate state) state store hasPub now created_at context llm).2.1,
          (dispatch (evaluate state) state store hasPub now created_at context llm).2.2,
          ["routing_request", "routing_result"])) ∧
    (∀ log2Ok : Bool, route state store hasPub now created_at context llm false log2Ok
       = (Except.error (), store, [], [])) ∧
    (route state store hasPub now created_at context llm true false
       = (Except.error (),
          (dispatch (evaluate state) state store hasPub now created_at context llm).2.1,
          (dispatch (evaluate state) state store hasPub now created_at context llm).2.2,
          ["routing_request"])) := by
  refine ⟨by simp [route], fun log2Ok => by simp [route], by simp [route]⟩

/-- Counterexample to C7 as stated: at a concrete low-risk snapshot with a
failing second log call, route raises and the already-computed template
RouteResult is not returned to the caller. -/
theorem route_log_failure_aborts_result :
    (route stepsZeroState emptyStore false sampleNow "T" emptyContext
        (Except.ok "advice") true false).1 = Except.error () ∧
    (dispatch (evaluate stepsZeroState) stepsZeroState emptyStore false sampleNow "T"
        emptyContext (Except.ok "advice")).1.route = "template" :=
  ⟨rfl, by decide⟩

/-- C10 (amended): on the low-risk template path the message is the base
sentence when there are no active weather warnings and the caution sentence
otherwise, with the activity-encouragement clause appended exactly when steps
is present, nonzero and below 3000 (a present step count of 0 is falsy and
skipped); the evidence is the evaluation's reasons. -/
theorem templatePath_spec (evaluation : RiskEvaluation) (state : StateSnapshot) :
    (stepsCond state.vitals = true
       ↔ (∃ v, state.vitals.steps = some v ∧ v ≠ 0 ∧ v < 3000)) ∧
    runTemplatePath evaluation state
      = { route := "template", risk_level := evaluation.level,
          message :=
            (if state.weather.warnings = [] then templateCalmMessage
             else templateCautionMessage)
              ++ (if stepsCond state.vitals then stepsClause else ""),
          reminder_ids := [], evidence := Evidence.reasons evaluation.reasons } := by
  constructor
  · cases h : state.vitals.steps <;> simp [stepsCond, h]
  · cases h : stepsCond state.vitals <;> simp [runTemplatePath, h]

/-- Counterexample to C10 as stated: a calm snapshot with steps = 0 (< 3000)
whose template message is the bare base sentence, without the
activity-encouragement clause the claim requires. -/
theorem templatePath_steps_zero_gap :
    stepsZeroState.vitals.steps = some 0 ∧ ((0 : ℚ) < 3000) ∧
    (runTemplatePath (evaluate stepsZeroState) stepsZeroState).message
        = templateCalmMessage ∧
    templateCalmMessage ≠ templateCalmMessage ++ stepsClause :=
  ⟨rfl, by norm_num, by decide, by decide⟩

/-- C4: for every store with distinct row ids, `triggerDue(now)` returns
exactly the pending reminders with a non-null dueTime ≤ now, transitions
exactly those to 'triggered' (leaving every other row unchanged), and a
second call with the same `now` on the resulting store returns the empty set:
it is idempotent by construction, because the first call already advanced
their status out of 'pending'. -/
theorem triggerDue_spec (store : ReminderStore) (hasPub : Bool) (now : String)
    (hids : (store.reminders.map Reminder.id).Nodup) :
    (triggerDue store hasPub now).1 = store.reminders.filter (duePending now) ∧
    ((triggerDue store hasPub now).2.1).reminders
      = store.reminders.map (fun r =>
          if duePending now r then { r with status := "triggered" } else r) ∧
    (triggerDue (triggerDue store hasPub now).2.1 hasPub now).1 = [] := by
  have hsubA : ∀ t ∈ store.reminders.filter (duePending now),
      ∃ r ∈ store.reminders, r.id = t.id :=
    fun t ht => ⟨t, List.mem_of_mem_filter ht, rfl⟩
  have hmap : ((triggerDue store hasPub now).2.1).reminders
      = store.reminders.map (fun r =>
          if r.id ∈ (store.reminders.filter (duePending now)).map Reminder.id
          then { r with status := "triggered" } else r) :=
    foldTrigger_reminders hasPub (store.reminders.filter (duePending now)) store [] hsubA
  have hpointwise : ∀ a ∈ store.reminders,
      (a.id ∈ (store.reminders.filter (duePending now)).map Reminder.id)
        ↔ duePending now a = true := by
    intro a ha
    constructor
    · intro hin
      obtain ⟨t, ht, hta⟩ := List.mem_map.mp hin
      have := List.inj_on_of_nodup_map hids (List.mem_of_mem_filter ht) ha hta
      subst this
      exact (List.mem_filter.mp ht).2
    · intro hdp
      exact List.mem_map.mpr ⟨a, List.mem_filter.mpr ⟨ha, hdp⟩, rfl⟩
  have hmap' : ((triggerDue store hasPub now).2.1).reminders
      = store.reminders.map (fun r =>
          if duePending now r then { r with status := "triggered" } else r) := by
    rw [hmap]
    refine List.map_congr_left ?_
    intro a ha
    by_cases hdp : duePending now a = true
    · rw [if_pos ((hpointwise a ha).mpr hdp), if_pos hdp]
    · rw [if_neg (fun hin => hdp ((hpointwise a ha).mp hin)), if_neg hdp]
  refine ⟨rfl, hmap', ?_⟩
  show ((triggerDue store hasPub now).2.1).reminders.filter (duePending now) = []
  rw [hmap', List.filter_eq_nil_iff]
  intro a ha
  obtain ⟨r, _, rfl⟩ := List.mem_map.mp ha
  by_cases hdp : duePending now r = true
  · rw [if_pos hdp]; simp [duePending]
  · rw [if_neg hdp]; simpa using hdp

/-- Witness for C4 on a concrete three-row store: reminder 1 is pending and
due, reminder 2 pending with no deadline, reminder 3 completed. -/
theorem triggerDue_spec_witness :
    (sampleStore.reminders.map Reminder.id).Nodup ∧
    ((triggerDue sampleStore true "D00000002T0800").1
        = sampleStore.reminders.filter (duePending "D00000002T0800") ∧
      ((triggerDue sampleStore true "D00000002T0800").2.1).reminders
        = sampleStore.reminders.map (fun r =>
            if duePending "D00000002T0800" r then { r with status := "triggered" } else r) ∧
      (triggerDue (triggerDue sampleStore true "D00000002T0800").2.1 true
          "D00000002T0800").1 = []) :=
  ⟨by decide, triggerDue_spec sampleStore true "D00000002T0800" (by decide)⟩

/-- C6: a non-self message carrying an accepted event (completed / ignored /
pending / triggered) and a truthy reminder id is applied through the store's
`update_status` with propagation suppressed: the rows with that id take the
derived status (the id counter and all other rows are untouched, and a
missing id leaves the store unchanged), and no outbound publish is ever made
on this path. -/
theorem onMessage_applies_suppressed (selfId : String) (hasPub : Bool)
    (store : ReminderStore) (payload : SyncPayload) (e : String) (i : ℕ)
    (hsrc : ¬ payload.source = some selfId)
    (hev : payload.event = some e)
    (hacc : e ∈ acceptedEvents)
    (hid : (payload.reminder.getD { id := none, status := none, user_id := none }).id = some i)
    (hi : i ≠ 0) :
    (onMessage selfId hasPub store (some payload)).2 = [] ∧
    ((onMessage selfId hasPub store (some payload)).1).reminders
      = store.reminders.map (fun r =>
          if r.id = i then { r with status := (syncStatus payload).getD e } else r) ∧
    ((onMessage selfId hasPub store (some payload)).1).next_id = store.next_id := by
  have hmsg : onMessage selfId hasPub store (some payload)
      = match updateStatus store hasPub i ((syncStatus payload).getD e) false with
        | Except.ok (_, s, pubs) => (s, pubs)
        | Except.error _ => (store, []) := by
    simp [onMessage, hsrc, hev, hid, hacc, hi]
  cases hupd : updateStatus store hasPub i ((syncStatus payload).getD e) false with
  | ok v =>
      obtain ⟨w, s', pubs⟩ := v
      obtain ⟨hrem, hnext, hpubs⟩ := updateStatus_ok store hasPub i _ false w s' pubs hupd
      rw [hmsg, hupd]
      refine ⟨by simp [hpubs], hrem, hnext⟩
  | error u =>
      cases u
      have hnone := updateStatus_error store hasPub i _ false hupd
      rw [hmsg, hupd]
      refine ⟨rfl, ?_, rfl⟩
      have hpt : ∀ a ∈ store.reminders,
          (if a.id = i then { a with status := (syncStatus payload).getD e } else a) = a := by
        intro a ha
        rw [if_neg (hnone a ha)]
      rw [List.map_congr_left hpt, List.map_id']

/-- Witness for C6: a remote completion event for reminder 1 against the
sample store, with a publisher attached. -/
theorem onMessage_applies_suppressed_witness :
    ¬ remoteCompleteMsg.source = some "device-A" ∧
    ((onMessage "device-A" true sampleStore (some remoteCompleteMsg)).2 = [] ∧
      ((onMessage "device-A" true sampleStore (some remoteCompleteMsg)).1).reminders
        = sampleStore.reminders.map (fun r =>
            if r.id = 1 then { r with status := (syncStatus remoteCompleteMsg).getD "completed" } else r) ∧
      ((onMessage "device-A" true sampleStore (some remoteCompleteMsg)).1).next_id
        = sampleStore.next_id) :=
  ⟨by decide,
   onMessage_applies_suppressed "device-A" true sampleStore remoteCompleteMsg
     "completed" 1 (by decide) rfl (by decide) rfl (by decide)⟩

/-- The accepted sync events are themselves lifecycle statuses. -/
theorem accepted_subset_valid : ∀ e ∈ acceptedEvents, e ∈ validStatuses := by decide

/-- Setting a lifecycle status on the rows with a given id preserves the
status invariant of the row list. -/
theorem storeInv_map_setter (l : List Reminder) (i : ℕ) (st : String)
    (hInv : ∀ r ∈ l, r.status ∈ validStatuses) (hst : st ∈ validStatuses) :
    ∀ x ∈ l.map (fun r => if r.id = i then { r with status := st } else r),
      x.status ∈ validStatuses := by
  intro x hx
  obtain ⟨r, hr, rfl⟩ := List.mem_map.mp hx
  by_cases h : r.id = i
  · rw [if_pos h]; exact hst
  · rw [if_neg h]; exact hInv r hr

/-- The status an accepted sync message writes is a lifecycle status whenever
the encoded reminder status is missing, empty, or itself in the enum. -/
theorem syncStatus_valid (p : SyncPayload) (e : String) (hev : p.event = some e)
    (hacc : e ∈ acceptedEvents)
    (hsafe : ∀ rp s, p.reminder = some rp → rp.status = some s →
      s = "" ∨ s ∈ validStatuses) :
    (syncStatus p).getD e ∈ validStatuses := by
  have he := accepted_subset_valid e hacc
  cases hrem : p.reminder with
  | none => simp [syncStatus, hrem, hev, he]
  | some rp =>
      cases hst : rp.status with
      | none => simp [syncStatus, hrem, hst, hev, he]
      | some s =>
          rcases hsafe rp s hrem hst with hs | hs
          · simp [syncStatus, hrem, hst, hs, hev, he]
          · have hne : ¬ s = "" := by
              intro h
              rw [h] at hs
              exact absurd hs (by decide)
            simp [syncStatus, hrem, hst, hne, hs]

/-- C9 (amended): newly created reminders start at status 'pending', and the
status invariant — every stored reminder's status lies in {pending,
triggered, completed, ignored} — is preserved by create and the due-time
sweep unconditionally, and by updateStatus and the synchronizer's application
of a remote event whenever the status written lies in the enum (for the
synchronizer: whenever the message's encoded reminder status is missing,
empty, or in the enum; an out-of-enum encoded status is written verbatim and
breaks the invariant). -/
theorem storeOps_preserve_statuses :
    (∀ (store : ReminderStore) (hasPub : Bool) (c u sev : String) (dt : Option DateTime)
        (rr : Option String) (tg : Option (List String)) (ca : String),
        (createReminder store hasPub c u sev dt rr tg ca).1.status = "pending") ∧
    (∀ (store : ReminderStore) (op : StoreOp),
        StoreInv store → opStatusSafe op → StoreInv (applyOp store op)) := by
  constructor
  · intro store hasPub c u sev dt rr tg ca
    rfl
  · intro store op hInv hsafe
    cases op with
    | create hasPub c u sev dt rr tg ca =>
        intro x hx
        simp only [applyOp, createReminder, List.mem_append, List.mem_singleton] at hx
        rcases hx with hx | rfl
        · exact hInv x hx
        · simp [validStatuses]
    | update hasPub i st prop =>
        cases hupd : updateStatus store hasPub i st prop with
        | ok v =>
            obtain ⟨w, s', pubs⟩ := v
            obtain ⟨hrem, -, -⟩ := updateStatus_ok store hasPub i st prop w s' pubs hupd
            have hres : applyOp store (StoreOp.update hasPub i st prop) = s' := by
              simp [applyOp, hupd]
            rw [hres]
            intro x hx
            rw [hrem] at hx
            exact storeInv_map_setter store.reminders i st hInv hsafe x hx
        | error u =>
            cases u
            have hres : applyOp store (StoreOp.update hasPub i st prop) = store := by
              simp [applyOp, hupd]
            rw [hres]
            exact hInv
    | sweep hasPub now =>
        have hsub : ∀ t ∈ store.reminders.filter (duePending now),
            ∃ r ∈ store.reminders, r.id = t.id :=
          fun t ht => ⟨t, List.mem_of_mem_filter ht, rfl⟩
        have hrem : ((applyOp store (StoreOp.sweep hasPub now)).reminders)
            = store.reminders.map (fun r =>
                if r.id ∈ (store.reminders.filter (duePending now)).map Reminder.id
                then { r with status := "triggered" } else r) :=
          foldTrigger_reminders hasPub (store.reminders.filter (duePending now)) store [] hsub
        intro x hx
        rw [hrem] at hx
        obtain ⟨r, hr, rfl⟩ := List.mem_map.mp hx
        by_cases h : r.id ∈ (store.reminders.filter (duePending now)).map Reminder.id
        · rw [if_pos h]; exact (by decide : ("triggered" : String) ∈ validStatuses)
        · rw [if_neg h]; exact hInv r hr
    | sync selfId hasPub msg =>
        cases msg with
        | none => exact hInv
        | some p =>
            by_cases hsrc : p.source = some selfId
            · have hres : applyOp store (StoreOp.sync selfId hasPub (some p)) = store := by
                simp [applyOp, onMessage, hsrc]
              rw [hres]; exact hInv
            · cases hev : p.event with
              | none =>
                  have hres : applyOp store (StoreOp.sync selfId hasPub (some p)) = store := by
                    simp [applyOp, onMessage, hsrc, hev]
                  rw [hres]; exact hInv
              | some e =>
                  cases hid : (p.reminder.getD { id := none, status := none, user_id := none }).id with
                  | none =>
                      have hres : applyOp store (StoreOp.sync selfId hasPub (some p)) = store := by
                        simp [applyOp, onMessage, hsrc, hev, hid]
                      rw [hres]; exact hInv
                  | some i =>
                      by_cases hcond : e ∈ acceptedEvents ∧ i ≠ 0
                      · have hstval : (syncStatus p).getD e ∈ validStatuses :=
                          syncStatus_valid p e hev hcond.1
                            (fun rp s hrp hs => hsafe p rp s rfl hrp hs)
                        cases hupd : updateStatus store hasPub i ((syncStatus p).getD e) false with
                        | ok v =>
                            obtain ⟨w, s', pubs⟩ := v
                            obtain ⟨hrem, -, -⟩ :=
                              updateStatus_ok store hasPub i _ false w s' pubs hupd
                            have hres : applyOp store (StoreOp.sync selfId hasPub (some p)) = s' := by
                              simp [applyOp, onMessage, hsrc, hev, hid, hcond.1, hcond.2, hupd]
                            rw [hres]
                            intro x hx
                            rw [hrem] at hx
                            exact storeInv_map_setter store.reminders i _ hInv hstval x hx
                        | error u =>
                            cases u
                            have hres : applyOp store (StoreOp.sync selfId hasPub (some p)) = store := by
                              simp [applyOp, onMessage, hsrc, hev, hid, hcond.1, hcond.2, hupd]
                            rw [hres]; exact hInv
                      · have hres : applyOp store (StoreOp.sync selfId hasPub (some p)) = store := by
                          simp only [applyOp, onMessage]
                          rw [if_neg hsrc]
                          rw [hev, hid]
                          simp [hcond]
                        rw [hres]; exact hInv

/-- Witness for C9: creation starts at 'pending' and a 'completed' update on
the sample store keeps every status in the enum. -/
theorem storeOps_preserve_statuses_witness :
    (createReminder sampleStore true "喝水" "user_001" "high" none none none "T").1.status
        = "pending" ∧
    StoreInv (applyOp sampleStore (StoreOp.update true 1 "completed" true)) :=
  ⟨storeOps_preserve_statuses.1 sampleStore true "喝水" "user_001" "high" none none none "T",
   storeOps_preserve_statuses.2 sampleStore (StoreOp.update true 1 "completed" true)
     (by decide) (show ("completed" : String) ∈ validStatuses by decide)⟩

/-- Counterexample to C9 as stated: a remote event whose encoded reminder
status is "broken" — outside the enum — is written verbatim by the
synchronizer, breaking the invariant on a store that satisfied it. -/
theorem sync_breaks_status_invariant :
    StoreInv sampleStore ∧ ("broken" : String) ∉ validStatuses ∧
    ¬ StoreInv (applyOp sampleStore (StoreOp.sync "device-A" false (some remoteBrokenMsg))) :=
  ⟨by decide, by decide, by decide⟩

/-- The temperature block contributes exactly the table's points and reason. -/
theorem tempStage_eq (temp : Option ℚ) (acc : ℕ × List String) :
    tempStage temp acc = (acc.1 + tableTempPts temp, acc.2 ++ tableTempReasons temp) := by
  cases temp with
  | none => simp [tempStage, tableTempPts, tableTempReasons]
  | some t =>
      simp only [tempStage, tableTempPts, tableTempReasons]
      split_ifs <;> simp

/-- The humidity block contributes exactly the table's points and reason: any
humidity ≥ 90 is nonzero, so its truthiness guard never changes the
outcome. -/
theorem humidityStage_eq (humidity : Option ℚ) (acc : ℕ × List String) :
    humidityStage humidity acc
      = (acc.1 + tableHumidityPts humidity, acc.2 ++ tableHumidityReasons humidity) := by
  cases humidity with
  | none => simp [humidityStage, tableHumidityPts, tableHumidityReasons]
  | some h =>
      by_cases h90 : 90 ≤ h
      · have hne : h ≠ 0 := fun h0 => by rw [h0] at h90; norm_num at h90
        simp [humidityStage, tableHumidityPts, tableHumidityReasons, h90, hne]
      · simp [humidityStage, tableHumidityPts, tableHumidityReasons, h90]

/-- The warning block contributes exactly the table's points and reason. -/
theorem warningsStage_eq (warnings : List String) (acc : ℕ × List String) :
    warningsStage warnings acc
      = (acc.1 + tableWarningPts warnings, acc.2 ++ tableWarningReasons warnings) := by
  by_cases hw : "WHOT" ∈ warnings ∨ "WRAINB" ∈ warnings <;>
    simp [warningsStage, tableWarningPts, tableWarningReasons, hw]

/-- For a heart rate other than a present 0, the heart-rate block contributes
exactly the table's points and reason. -/
theorem heartStage_eq (heart_rate : Option ℚ) (hne : heart_rate ≠ some 0)
    (acc : ℕ × List String) :
    heartStage heart_rate acc
      = (acc.1 + tableHeartPts heart_rate, acc.2 ++ tableHeartReasons heart_rate) := by
  cases heart_rate with
  | none => simp [heartStage, tableHeartPts, tableHeartReasons]
  | some hr =>
      have h0 : hr ≠ 0 := fun h => hne (by rw [h])
      simp only [heartStage, tableHeartPts, tableHeartReasons, h0, ne_eq,
        not_false_eq_true, true_and]
      split_ifs <;> simp

/-- For a sleep value other than a present 0, the sleep block contributes
exactly the table's points and reason. -/
theorem sleepStage_eq (sleep : Option ℚ) (hne : sleep ≠ some 0)
    (acc : ℕ × List String) :
    sleepStage sleep acc
      = (acc.1 + tableSleepPts sleep, acc.2 ++ tableSleepReasons sleep) := by
  cases sleep with
  | none => simp [sleepStage, tableSleepPts, tableSleepReasons]
  | some sl =>
      have h0 : sl ≠ 0 := fun h => hne (by rw [h])
      simp only [sleepStage, tableSleepPts, tableSleepReasons, h0, ne_eq,
        not_false_eq_true, true_and]
      split_ifs <;> simp

/-- C1 (amended): for every snapshot whose heart rate and sleep are not a
present 0 (Python truthiness skips a present zero like an absent field),
evaluate returns exactly the sum of the additive table contributions, one
reason per firing condition in evaluation order, and the level given by the
thresholds score ≥ 7 → high, 4 ≤ score < 7 → medium, else low; absent fields
are simply skipped. -/
theorem evaluate_matches_table (s : StateSnapshot)
    (hhr : s.vitals.heart_rate ≠ some 0) (hsl : s.vitals.sleep ≠ some 0) :
    evaluate s = { score := tableScore s, level := tableLevel (tableScore s),
                   reasons := tableReasons s } := by
  simp only [evaluate, tempStage_eq, humidityStage_eq, warningsStage_eq,
    heartStage_eq s.vitals.heart_rate hhr, sleepStage_eq s.vitals.sleep hsl,
    tableScore, tableLevel, tableReasons]
  simp [Nat.add_assoc, List.append_assoc]

/-- Witness for C1 at spec Scenario A (temperature 35, warning WHOT, heart
rate 115, sleep 5.5): score 4 + 3 + 3 + 2 = 12, level high. -/
theorem evaluate_matches_table_witness :
    scenarioAState.vitals.heart_rate ≠ some 0 ∧ scenarioAState.vitals.sleep ≠ some 0 ∧
    evaluate scenarioAState
      = { score := tableScore scenarioAState,
          level := tableLevel (tableScore scenarioAState),
          reasons := tableReasons scenarioAState } :=
  ⟨by decide, by decide, evaluate_matches_table scenarioAState (by decide) (by decide)⟩

/-- Counterexample to C1 as stated: a snapshot whose only present field is a
heart rate of exactly 0 — the claim's table awards +2 for heartRate ≤ 50, but
the code's truthiness guard (`if heart_rate and …`) skips the zero value and
scores 0. -/
theorem evaluate_truthiness_gap :
    hrZeroState.vitals.heart_rate = some 0 ∧ ((0 : ℚ) ≤ 50) ∧
    tableScore hrZeroState = 2 ∧ (evaluate hrZeroState).score = 0 :=
  ⟨rfl, by norm_num, by decide, by decide⟩

/-- C2 (amended): the heat macro fires exactly when temperature ≥ 33 or WHOT
is among the warnings, and the sleep macro exactly when sleep is present,
nonzero and below 6 (a present sleep of 0 is falsy and skipped); each firing
macro creates its two reminders in order (hydration due in 30 minutes and
family contact due in 1 hour, both high; wind-down due at the next upcoming
22:00, medium, and sleep logging due in 12 hours, low), the message is the
newline-joined concatenation of the fired macros' sentences in heat-then-sleep
order, reminderIds lists the created ids in the same order, and each creation
is broadcast as a "created" event when a publisher is attached. -/
theorem careMacroRun_spec (evaluation : RiskEvaluation) (state : StateSnapshot)
    (store : ReminderStore) (hasPub : Bool) (now : DateTime) (created_at : String) :
    (heatCond state = true ↔
      ((∃ t, state.weather.temperature = some t ∧ 33 ≤ t)
        ∨ "WHOT" ∈ state.weather.warnings)) ∧
    (sleepCond state.vitals = true ↔
      (∃ v, state.vitals.sleep = some v ∧ v ≠ 0 ∧ v < 6)) ∧
    (careMacroRun evaluation state store hasPub now created_at
      = (let uid := state.user_id.getD DEFAULT_USER_ID
         let newRs :=
           (if heatCond state then claimHeatReminders store.next_id uid now created_at else [])
           ++ (if sleepCond state.vitals then
                 claimSleepReminders (store.next_id + (if heatCond state then 2 else 0))
                   uid now created_at
               else [])
         ({ route := "macro", risk_level := evaluation.level,
            message :=
              if heatCond state || sleepCond state.vitals then
                String.intercalate "\n"
                  ((if heatCond state then [heatMacroMessage] else [])
                    ++ (if sleepCond state.vitals then [sleepMacroMessage] else []))
              else genericCautionMessage,
            reminder_ids := newRs.map Reminder.id, evidence := Evidence.nothing },
          { reminders := store.reminders ++ newRs,
            next_id := store.next_id + newRs.length },
          if hasPub then newRs.map (fun r => { event := "created", reminder := r }) else []))) := by
  refine ⟨?_, ?_, ?_⟩
  · cases ht : state.weather.temperature with
    | none => simp [heatCond, ht, List.elem_iff]
    | some t =>
        by_cases h33 : 33 ≤ t
        · have hne : t ≠ 0 := fun h0 => by rw [h0] at h33; norm_num at h33
          simp [heatCond, ht, List.elem_iff, h33, hne]
        · simp [heatCond, ht, List.elem_iff, h33]
  · cases hs : state.vitals.sleep with
    | none => simp [sleepCond, hs]
    | some v => simp [sleepCond, hs]
  · cases hh : heatCond state <;> cases hs : sleepCond state.vitals <;>
      cases hasPub <;>
        simp [careMacroRun, heatMacro, sleepMacro, createReminder, claimHeatReminders,
          claimSleepReminders, hh, hs, Nat.add_assoc] <;> decide

/-- Counterexample to C2 as stated: a present sleep of exactly 0 satisfies
sleep < 6, yet the truthiness guard (`if vitals.get("sleep") and …`) keeps the
sleep macro from firing — run returns the generic caution with no reminders
and an unchanged store instead of creating the two sleep reminders. -/
theorem careMacroRun_sleep_zero_gap :
    sleepZeroState.vitals.sleep = some 0 ∧ ((0 : ℚ) < 6) ∧
    (careMacroRun (RiskEvaluation.mk 7 "high" []) sleepZeroState emptyStore true sampleNow
        "T").1.reminder_ids = [] ∧
    (careMacroRun (RiskEvaluation.mk 7 "high" []) sleepZeroState emptyStore true sampleNow
        "T").1.message = genericCautionMessage ∧
    (careMacroRun (RiskEvaluation.mk 7 "high" []) sleepZeroState emptyStore true sampleNow
        "T").2.1 = emptyStore :=
  ⟨rfl, by norm_num, by decide, by decide, by decide⟩

end DailyHealthCare
